import Mathlib

/-
Verification of the pylox tree-walking interpreter (a Python port of lox).
The Python sources are shallowly embedded below: Python floats are modelled
as unnormalized rationals plus an explicit NaN (IEEE rounding, infinities
and signed zero are abstracted away; the decimal digit rendering of
non-integral numbers is likewise abstracted), Python dicts as association
lists, and the mutable object graph (environments, classes, instances) as
explicit heaps indexed by allocation order.  Object identity is modelled by
heap index (instances, classes) or by a fresh id stamped at each
LoxFunction construction (functions).  Exceptions (RuntimeError,
ReturnException, and uncatchable Python crashes such as KeyError) become
an explicit outcome type, and recursion is fuel-based.
-/

set_option maxHeartbeats 1000000

namespace Pylox

/-! Numbers: model of Python float as used by the interpreter. -/

/-- Unnormalized rational: numerator over positive denominator. -/
structure PRat where
  num : Int
  den : Nat

def PRat.ofInt (i : Int) : PRat := ⟨i, 1⟩

def PRat.addR (a b : PRat) : PRat := ⟨a.num * b.den + b.num * a.den, a.den * b.den⟩

def PRat.subR (a b : PRat) : PRat := ⟨a.num * b.den - b.num * a.den, a.den * b.den⟩

def PRat.mulR (a b : PRat) : PRat := ⟨a.num * b.num, a.den * b.den⟩

def PRat.divR (a b : PRat) : PRat :=
  ⟨a.num * b.den * (if b.num < 0 then -1 else 1), a.den * b.num.natAbs⟩

def PRat.negR (a : PRat) : PRat := ⟨-a.num, a.den⟩

/-- Value equality of two rationals (cross multiplication). -/
def PRat.eqb (a b : PRat) : Bool := a.num * b.den == b.num * a.den

def PRat.ltb (a b : PRat) : Bool := a.num * b.den < b.num * a.den

def PRat.leb (a b : PRat) : Bool := a.num * b.den ≤ b.num * a.den

/-- Model of a Python float: NaN or a (model) rational. -/
inductive PNum where
  | nan : PNum
  | fin (r : PRat) : PNum

def PNum.add : PNum → PNum → PNum
  | .fin a, .fin b => .fin (a.addR b)
  | _, _ => .nan

def PNum.sub : PNum → PNum → PNum
  | .fin a, .fin b => .fin (a.subR b)
  | _, _ => .nan

def PNum.mul : PNum → PNum → PNum
  | .fin a, .fin b => .fin (a.mulR b)
  | _, _ => .nan

def PNum.div : PNum → PNum → PNum
  | .fin a, .fin b => .fin (a.divR b)
  | _, _ => .nan

def PNum.neg : PNum → PNum
  | .fin a => .fin a.negR
  | .nan => .nan

/-- Python float equality: NaN is unequal to everything, itself included. -/
def PNum.eqb : PNum → PNum → Bool
  | .fin a, .fin b => a.eqb b
  | _, _ => false

def PNum.ltb : PNum → PNum → Bool
  | .fin a, .fin b => a.ltb b
  | _, _ => false

def PNum.leb : PNum → PNum → Bool
  | .fin a, .fin b => a.leb b
  | _, _ => false

def PNum.gtb (a b : PNum) : Bool := PNum.ltb b a

def PNum.geb (a b : PNum) : Bool := PNum.leb b a

def PNum.ofNat (n : Nat) : PNum := .fin (PRat.ofInt n)

/-! Tokens (token_type.py). -/

inductive TokenType where
  | AND | CLASS | ELSE | FALSE | FUN | FOR | IF | NIL | OR
  | PRINT | RETURN | SUPER | THIS | TRUE | VAR | WHILE
  | LEFT_PAREN | RIGHT_PAREN | LEFT_BRACE | RIGHT_BRACE
  | COMMA | DOT | MINUS | PLUS | SEMICOLON | SLASH | STAR
  | BANG | BANG_EQUAL | EQUAL | EQUAL_EQUAL
  | GREATER | GREATER_EQUAL | LESS | LESS_EQUAL
  | IDENTIFIER | STRING | NUMBER | EOF
deriving DecidableEq

/-- Literal payload of a token (Python: None, a float, or a string). -/
inductive Lit where
  | noneL
  | numL (n : PNum)
  | strL (s : String)

structure Token where
  type : TokenType
  lexeme : String
  literal : Lit
  line : Nat

/-! AST (expressions.py, statements.py).  Python keys the resolver side
table by object identity of expression nodes; following the spec's porting
note, the four node kinds that acquire entries (Variable, Assign, This,
Super) carry a unique integer id assigned at parse time. -/

/-- Value stored in a Literal expression node. -/
inductive LitVal where
  | nilV
  | boolV (b : Bool)
  | numV (n : PNum)
  | strV (s : String)

inductive Expr where
  | binary (left : Expr) (operator : Token) (right : Expr)
  | grouping (expression : Expr)
  | literal (value : LitVal)
  | unary (operator : Token) (right : Expr)
  | variableE (name : Token) (nid : Nat)
  | assignE (name : Token) (value : Expr) (nid : Nat)
  | logical (left : Expr) (operator : Token) (right : Expr)
  | callE (callee : Expr) (paren : Token) (arguments : List Expr)
  | getE (object : Expr) (name : Token)
  | setE (object : Expr) (name : Token) (value : Expr)
  | thisE (keyword : Token) (nid : Nat)
  | superE (keyword : Token) (method : Token) (nid : Nat)

inductive Stmt where
  | expression (e : Expr)
  | printS (e : Expr)
  | varS (name : Token) (initOpt : Option Expr)
  | block (statements : List Stmt)
  | ifS (condition : Expr) (thenBranch : Stmt) (elseBranch : Option Stmt)
  | whileS (condition : Expr) (body : Stmt)
  | funcS (name : Token) (params : List Token) (body : List Stmt)
  | returnS (keyword : Token) (value : Option Expr)
  | classS (name : Token) (superclass : Option Expr) (methods : List Stmt)

/-! Runtime values (interpreter.py). -/

/-- The declaration part of a LoxFunction (a Stmt.Function node). -/
structure FunDecl where
  name : Token
  params : List Token
  body : List Stmt

/-- A LoxFunction object.  fid is a fresh stamp modelling Python object
identity (a new one per LoxFunction construction). -/
structure FunObj where
  fid : Nat
  decl : FunDecl
  closure : Nat
  isInit : Bool

inductive Value where
  | vnil
  | vbool (b : Bool)
  | vnum (n : PNum)
  | vstr (s : String)
  | vfun (f : FunObj)
  | vclass (c : Nat)
  | vinst (i : Nat)
  | vclock

/-! Heaps and interpreter state. -/

/-- One Environment object: its dict plus the enclosing reference. -/
structure EnvData where
  values : List (String × Value)
  enclosing : Option Nat

/-- One LoxClass object. -/
structure ClassData where
  cname : String
  superclass : Option Nat
  methods : List (String × FunObj)

/-- One LoxInstance object. -/
structure InstData where
  klass : Nat
  fields : List (String × Value)

/-- Mutable world of a running interpreter: heaps of environments,
classes and instances (index = allocation order = identity), the text
printed to stdout so far, the next fresh function id, and the value the
clock built-in reports. -/
structure St where
  envs : List EnvData
  classes : List ClassData
  insts : List InstData
  output : List String
  nextFid : Nat
  timeNow : PNum

/-- Association-list lookup (Python dict read). -/
def alookup : List (String × Value) → String → Option Value
  | [], _ => none
  | (k, v) :: rest, n => if k == n then some v else alookup rest n

/-- Association-list write (Python dict write: overwrite or append). -/
def aset : List (String × Value) → String → Value → List (String × Value)
  | [], n, v => [(n, v)]
  | (k, w) :: rest, n, v => if k == n then (n, v) :: rest else (k, w) :: aset rest n v

def ClassData.mlookup : List (String × FunObj) → String → Option FunObj
  | [], _ => none
  | (k, f) :: rest, n => if k == n then some f else ClassData.mlookup rest n

def ClassData.mset : List (String × FunObj) → String → FunObj → List (String × FunObj)
  | [], n, f => [(n, f)]
  | (k, g) :: rest, n, f =>
    if k == n then (n, f) :: rest else (k, g) :: ClassData.mset rest n f

def St.envGet (s : St) (e : Nat) : EnvData := (s.envs.get? e).getD ⟨[], none⟩

def St.classGet (s : St) (c : Nat) : ClassData := (s.classes.get? c).getD ⟨"", none, []⟩

def St.instGet (s : St) (i : Nat) : InstData := (s.insts.get? i).getD ⟨0, []⟩

/-- Allocate a new Environment(enclosing) with the given initial dict;
returns its id. -/
def St.newEnv (s : St) (vals : List (String × Value)) (enc : Option Nat) : Nat × St :=
  (s.envs.length, { s with envs := s.envs ++ [⟨vals, enc⟩] })

def St.setEnvValues (s : St) (e : Nat) (vals : List (String × Value)) : St :=
  { s with envs := s.envs.set e ⟨vals, (s.envGet e).enclosing⟩ }

/-! Pure value helpers (interpreter.py). -/

/-- Interpreter.is_truthy: like Ruby, nil and false are falsy. -/
def is_truthy : Value → Bool
  | .vnil => false
  | .vbool b => b
  | _ => true

/-- Python == between a Lox bool and a Lox number (bool is an int in
Python, so True == 1.0 and False == 0.0). -/
def boolNumEq (b : Bool) (n : PNum) : Bool :=
  PNum.eqb (.fin (PRat.ofInt (if b then 1 else 0))) n

/-- Python == on two non-None runtime values, as invoked by
Interpreter.is_equal.  LoxFunction, LoxClass, LoxInstance define no custom
equality, so they compare by identity; cross-variant comparisons are false
except that Python numerically conflates bool with float. -/
def pyEq : Value → Value → Bool
  | .vnil, .vnil => true
  | .vbool a, .vbool b => a == b
  | .vbool a, .vnum n => boolNumEq a n
  | .vnum n, .vbool b => boolNumEq b n
  | .vnum a, .vnum b => PNum.eqb a b
  | .vstr a, .vstr b => a == b
  | .vfun f, .vfun g => f.fid == g.fid
  | .vclass a, .vclass b => a == b
  | .vinst a, .vinst b => a == b
  | .vclock, .vclock => true
  | _, _ => false

/-- Interpreter.is_equal. -/
def is_equal (a b : Value) : Bool :=
  match a, b with
  | .vnil, .vnil => true
  | .vnil, _ => false
  | _, _ => pyEq a b

/-- An apostrophe character, used in several diagnostic messages. -/
def sq : String := String.singleton (Char.ofNat 39)

/-- Decimal rendering of a model number, following Python str(float) with
the trailing ".0" stripped by Interpreter.stringify: integral values
render as plain integers; the digit expansion of non-integral values is
abstracted (the model prints numerator/denominator). -/
def numToStr : PNum → String
  | .nan => "nan"
  | .fin r =>
    if r.num % (r.den : Int) == 0 ∧ r.den ≠ 0 then toString (r.num / (r.den : Int))
    else toString r.num ++ "/" ++ toString r.den

/-- Interpreter.stringify (needs the heaps to print class names). -/
def stringify (s : St) : Value → String
  | .vnil => "nil"
  | .vbool b => if b then "true" else "false"
  | .vnum n => numToStr n
  | .vstr t => t
  | .vfun f => "<fn " ++ f.decl.name.lexeme ++ ">"
  | .vclass c => "<class " ++ (s.classGet c).cname ++ ">"
  | .vinst i => "<" ++ (s.classGet (s.instGet i).klass).cname ++ " instance>"
  | .vclock => "<native fn>"

/-! Execution outcomes.  RuntimeError carries its trigger token; a Lox
return statement raises ReturnException (the ret outcome); crash models an
uncatchable Python exception (KeyError, AttributeError); fuel is
exhaustion of the step budget (possible non-termination). -/

inductive Res (α : Type) where
  | ok (a : α) (s : St)
  | err (t : Token) (m : String) (s : St)
  | ret (v : Value) (s : St)
  | crash (m : String) (s : St)
  | fuel

def Res.andThen {α β : Type} : Res α → (α → St → Res β) → Res β
  | .ok a s, f => f a s
  | .err t m s, _ => .err t m s
  | .ret v s, _ => .ret v s
  | .crash m s, _ => .crash m s
  | .fuel, _ => .fuel

/-- Whether an outcome is normal completion. -/
def Res.isNormal {α : Type} : Res α → Bool
  | .ok _ _ => true
  | _ => false

/-! Environment operations (environment.py). -/

/-- Environment.define: unconditional insert/overwrite in this scope. -/
def envDefine (s : St) (e : Nat) (n : String) (v : Value) : St :=
  s.setEnvValues e (aset (s.envGet e).values n v)

/-- Environment.ancestor: walk the enclosing chain distance hops outward.
Python crashes (AttributeError / a None result) when the chain is shorter
than distance; the model returns none there. -/
def ancestor (s : St) (e : Nat) : Nat → Option Nat
  | 0 => some e
  | d + 1 =>
    match (s.envGet e).enclosing with
    | some p => ancestor s p d
    | none => none

/-- Environment.get_at: a direct dict read in ancestor(distance); none
models the Python KeyError / crash (no walking to enclosing scopes). -/
def get_at (s : St) (e : Nat) (distance : Nat) (n : String) : Option Value :=
  (ancestor s e distance).bind fun a => alookup (s.envGet a).values n

/-- Environment.assign_at: a direct dict write in ancestor(distance). -/
def assign_at (s : St) (e : Nat) (distance : Nat) (n : String) (v : Value) : Option St :=
  (ancestor s e distance).map fun a => s.setEnvValues a (aset (s.envGet a).values n v)

/-- Environment.get: walk outward through enclosing; RuntimeError when the
chain ends.  The fuel bounds the walk (chains are finite by construction). -/
def envWalkGet (s : St) (name : Token) : Nat → Nat → Res Value
  | _, 0 => .crash "env chain fuel" s
  | e, fu + 1 =>
    match alookup (s.envGet e).values name.lexeme with
    | some v => .ok v s
    | none =>
      match (s.envGet e).enclosing with
      | some p => envWalkGet s name p fu
      | none => .err name ("Undefined variable " ++ sq ++ name.lexeme ++ sq ++ ".") s

/-- Environment.assign: walk outward to the defining scope and update. -/
def envWalkAssign (s : St) (name : Token) (v : Value) : Nat → Nat → Res Unit
  | _, 0 => .crash "env chain fuel" s
  | e, fu + 1 =>
    match alookup (s.envGet e).values name.lexeme with
    | some _ => .ok () (envDefine s e name.lexeme v)
    | none =>
      match (s.envGet e).enclosing with
      | some p => envWalkAssign s name v p fu
      | none => .err name ("Undefined variable " ++ sq ++ name.lexeme ++ sq ++ ".") s

/-! Class and instance operations (interpreter.py). -/

/-- LoxClass.find_method: own table first, then the superclass chain.
Fueled by heap size (superclass chains are finite by construction). -/
def find_method (s : St) : Nat → String → Nat → Option FunObj
  | _, _, 0 => none
  | c, n, fu + 1 =>
    match ClassData.mlookup (s.classGet c).methods n with
    | some f => some f
    | none =>
      match (s.classGet c).superclass with
      | some sup => find_method s sup n fu
      | none => none

/-- LoxFunction.bind: a fresh environment over the method's closure
holding this, and a new LoxFunction (fresh identity) over it. -/
def bindMethod (s : St) (f : FunObj) (inst : Value) : FunObj × St :=
  let (e, s1) := s.newEnv [("this", inst)] (some f.closure)
  let g : FunObj := ⟨s1.nextFid, f.decl, e, f.isInit⟩
  (g, { s1 with nextFid := s1.nextFid + 1 })

/-- LoxCallable.arity. -/
def arityOf (s : St) : Value → Option Nat
  | .vfun f => some f.decl.params.length
  | .vclass c =>
    match find_method s c "init" (s.classes.length + 1) with
    | some f => some f.decl.params.length
    | none => some 0
  | .vclock => some 0
  | _ => none

/-- LoxInstance.set: unconditional write to the field table. -/
def instSet (s : St) (i : Nat) (n : String) (v : Value) : St :=
  { s with insts := s.insts.set i ⟨(s.instGet i).klass, aset (s.instGet i).fields n v⟩ }

/-! Binary and unary operator dispatch (interpreter.py, visit_binary_expr
and visit_unary_expr, after the operands have been evaluated). -/

/-- isinstance(x, float): Lox numbers only (a Python bool is not a float). -/
def isNumV : Value → Bool
  | .vnum _ => true
  | _ => false

def isStrV : Value → Bool
  | .vstr _ => true
  | _ => false

/-- Interpreter.check_number_operands. -/
def check_number_operands (op : Token) (l r : Value) (s : St) : Res (PNum × PNum) :=
  match l, r with
  | .vnum a, .vnum b => .ok (a, b) s
  | _, _ => .err op "Operands must be numbers." s

/-- The body of Interpreter.visit_binary_expr once both operands are
values; the final fall-through (an operator kind with no case) returns
None in Python, hence nil here. -/
def visit_binary_op (op : Token) (l r : Value) (s : St) : Res Value :=
  match op.type with
  | .MINUS => (check_number_operands op l r s).andThen fun p s1 => .ok (.vnum (p.1.sub p.2)) s1
  | .PLUS =>
    match l, r with
    | .vnum a, .vnum b => .ok (.vnum (a.add b)) s
    | _, _ =>
      if isStrV l || isStrV r then .ok (.vstr (stringify s l ++ stringify s r)) s
      else .err op "Operands must be two numbers or at least one string." s
  | .SLASH =>
    (check_number_operands op l r s).andThen fun p s1 =>
      if PNum.eqb p.2 (PNum.ofNat 0) then .err op "Division by zero." s1
      else .ok (.vnum (p.1.div p.2)) s1
  | .STAR => (check_number_operands op l r s).andThen fun p s1 => .ok (.vnum (p.1.mul p.2)) s1
  | .GREATER => (check_number_operands op l r s).andThen fun p s1 => .ok (.vbool (p.1.gtb p.2)) s1
  | .GREATER_EQUAL =>
    (check_number_operands op l r s).andThen fun p s1 => .ok (.vbool (p.1.geb p.2)) s1
  | .LESS => (check_number_operands op l r s).andThen fun p s1 => .ok (.vbool (p.1.ltb p.2)) s1
  | .LESS_EQUAL => (check_number_operands op l r s).andThen fun p s1 => .ok (.vbool (p.1.leb p.2)) s1
  | .BANG_EQUAL => .ok (.vbool (!is_equal l r)) s
  | .EQUAL_EQUAL => .ok (.vbool (is_equal l r)) s
  | _ => .ok .vnil s

/-- The body of Interpreter.visit_unary_expr once the operand is a value. -/
def visit_unary_op (op : Token) (right : Value) (s : St) : Res Value :=
  match op.type with
  | .MINUS =>
    match right with
    | .vnum n => .ok (.vnum n.neg) s
    | _ => .err op "Operand must be a number." s
  | .BANG => .ok (.vbool (!is_truthy right)) s
  | _ => .ok .vnil s

/-- The Literal expression payload as a runtime value. -/
def litToValue : LitVal → Value
  | .nilV => .vnil
  | .boolV b => .vbool b
  | .numV n => .vnum n
  | .strV t => .vstr t

/-- The resolver side table (expression node id to depth). -/
abbrev Rho := List (Nat × Nat)

def rlookup : Rho → Nat → Option Nat
  | [], _ => none
  | (k, d) :: rest, n => if k == n then some d else rlookup rest n

/-- The globals environment is the first one allocated (interpreter
construction). -/
def globalsId : Nat := 0

/-- Interpreter.lookup_variable. -/
def lookup_variable (rho : Rho) (s : St) (env : Nat) (name : Token) (nid : Nat) : Res Value :=
  match rlookup rho nid with
  | some d =>
    match get_at s env d name.lexeme with
    | some v => .ok v s
    | none => .crash "KeyError" s
  | none => envWalkGet s name globalsId (s.envs.length + 1)

/-- The name token of an Expr.Variable node (Python reads .name off the
superclass expression; anything else would be an AttributeError). -/
def exprVarName : Expr → Option Token
  | .variableE t _ => some t
  | _ => none

/-- Fresh LoxFunction for a declared function or method. -/
def mkFun (s : St) (name : Token) (params : List Token) (body : List Stmt)
    (closure : Nat) (isInit : Bool) : FunObj × St :=
  (⟨s.nextFid, ⟨name, params, body⟩, closure, isInit⟩, { s with nextFid := s.nextFid + 1 })

/-- The method table of a class declaration: one LoxFunction per method,
with isInitializer true exactly when the method is named init. -/
def buildMethods (closure : Nat) : List Stmt → St → List (String × FunObj) × St
  | [], s => ([], s)
  | .funcS name params body :: rest, s =>
    let (f, s1) := mkFun s name params body closure (name.lexeme == "init")
    let (tbl, s2) := buildMethods closure rest s1
    (ClassData.mset tbl name.lexeme f, s2)
  | _ :: rest, s => buildMethods closure rest s

/-! The tree-walking evaluator (interpreter.py).  The Python visitor
methods become one fuel-indexed mutual recursion; the mutable
self.environment pointer (saved and restored by execute_block) becomes the
env parameter. -/

/-- The parameter dict built by LoxFunction.call: each parameter defined
to the corresponding argument, in order (a repeated name keeps the last). -/
def paramBinds (f : FunObj) (args : List Value) : List (String × Value) :=
  (f.decl.params.zip args).foldl (fun acc pa => aset acc pa.1.lexeme pa.2) []

/-- The rest of Interpreter.visit_class_stmt once the superclass value is
known: forward-define the name as nil, push the super scope when a
superclass is present, build the method table, allocate the class, pop the
super scope, and assign the class object to its name. -/
def execClassBody (_rho : Rho) (name : Token) (sup : Option Nat) (methods : List Stmt)
    (env : Nat) (s : St) : Res Unit :=
  let s1 := envDefine s env name.lexeme .vnil
  let (menv, s2) :=
    match sup with
    | some c => s1.newEnv [("super", .vclass c)] (some env)
    | none => (env, s1)
  let (tbl, s3) := buildMethods menv methods s2
  let cid := s3.classes.length
  let s4 := { s3 with classes := s3.classes ++ [⟨name.lexeme, sup, tbl⟩] }
  (envWalkAssign s4 name (.vclass cid) env (s4.envs.length + 1)).andThen fun _ s5 => .ok () s5

mutual

def evalE (rho : Rho) (fuel : Nat) (e : Expr) (env : Nat) (s : St) : Res Value :=
  match fuel with
  | 0 => .fuel
  | .succ n =>
    match e with
    | .literal v => .ok (litToValue v) s
    | .grouping inner => evalE rho n inner env s
    | .unary op right => (evalE rho n right env s).andThen fun rv s1 => visit_unary_op op rv s1
    | .binary left op right =>
      (evalE rho n left env s).andThen fun lv s1 =>
        (evalE rho n right env s1).andThen fun rv s2 => visit_binary_op op lv rv s2
    | .variableE name nid => lookup_variable rho s env name nid
    | .assignE name valE nid =>
      (evalE rho n valE env s).andThen fun v s1 =>
        match rlookup rho nid with
        | some d =>
          match assign_at s1 env d name.lexeme v with
          | some s2 => .ok v s2
          | none => .crash "AttributeError" s1
        | none =>
          (envWalkAssign s1 name v globalsId (s1.envs.length + 1)).andThen fun _ s2 => .ok v s2
    | .logical left op right =>
      (evalE rho n left env s).andThen fun lv s1 =>
        if op.type = .OR then
          if is_truthy lv then .ok lv s1 else evalE rho n right env s1
        else
          if !is_truthy lv then .ok lv s1 else evalE rho n right env s1
    | .callE callee paren args =>
      (evalE rho n callee env s).andThen fun cv s1 =>
        (evalArgs rho n args env s1).andThen fun argv s2 =>
          match arityOf s2 cv with
          | none => .err paren "Can only call functions and classes." s2
          | some k =>
            if argv.length ≠ k then
              .err paren ("Expected " ++ toString k ++ " arguments but got "
                ++ toString argv.length ++ ".") s2
            else
              match cv with
              | .vfun f => callFun rho n f argv s2
              | .vclass c => callClass rho n c argv s2
              | .vclock => .ok (.vnum s2.timeNow) s2
              | _ => .crash "unreachable callable" s2
    | .getE obj name =>
      (evalE rho n obj env s).andThen fun ov s1 =>
        match ov with
        | .vinst i =>
          match alookup (s1.instGet i).fields name.lexeme with
          | some v => .ok v s1
          | none =>
            match find_method s1 (s1.instGet i).klass name.lexeme (s1.classes.length + 1) with
            | some m =>
              let (g, s2) := bindMethod s1 m (.vinst i)
              .ok (.vfun g) s2
            | none =>
              .err name ("Undefined property " ++ sq ++ name.lexeme ++ sq ++ ".") s1
        | _ => .err name "Only instances have properties." s1
    | .setE obj name valE =>
      (evalE rho n obj env s).andThen fun ov s1 =>
        match ov with
        | .vinst i =>
          (evalE rho n valE env s1).andThen fun v s2 => .ok v (instSet s2 i name.lexeme v)
        | _ => .err name "Only instances have fields." s1
    | .thisE keyword nid => lookup_variable rho s env keyword nid
    | .superE _ methodTok nid =>
      match rlookup rho nid with
      | none => .crash "KeyError" s
      | some d =>
        match get_at s env d "super" with
        | some (.vclass c) =>
          match get_at s env (d - 1) "this" with
          | some obj =>
            match find_method s c methodTok.lexeme (s.classes.length + 1) with
            | some m =>
              let (g, s1) := bindMethod s m obj
              .ok (.vfun g) s1
            | none =>
              .err methodTok ("Undefined property " ++ sq ++ methodTok.lexeme ++ sq ++ ".") s
          | none => .crash "KeyError" s
        | some _ => .crash "AttributeError" s
        | none => .crash "KeyError" s

termination_by structural fuel

def evalArgs (rho : Rho) (fuel : Nat) (args : List Expr) (env : Nat) (s : St) :
    Res (List Value) :=
  match fuel with
  | 0 => .fuel
  | .succ n =>
    match args with
    | [] => .ok [] s
    | a :: rest =>
      (evalE rho n a env s).andThen fun v s1 =>
        (evalArgs rho n rest env s1).andThen fun vs s2 => .ok (v :: vs) s2

termination_by structural fuel

def execS (rho : Rho) (fuel : Nat) (stmt : Stmt) (env : Nat) (s : St) : Res Unit :=
  match fuel with
  | 0 => .fuel
  | .succ n =>
    match stmt with
    | .expression e => (evalE rho n e env s).andThen fun _ s1 => .ok () s1
    | .printS e =>
      (evalE rho n e env s).andThen fun v s1 =>
        .ok () { s1 with output := s1.output ++ [stringify s1 v] }
    | .varS name initOpt =>
      (match initOpt with
       | some e => evalE rho n e env s
       | none => .ok .vnil s).andThen fun v s1 => .ok () (envDefine s1 env name.lexeme v)
    | .block stmts =>
      let (e, s1) := s.newEnv [] (some env)
      execStmts rho n stmts e s1
    | .ifS cond thenB elseB =>
      (evalE rho n cond env s).andThen fun cv s1 =>
        if is_truthy cv then execS rho n thenB env s1
        else
          match elseB with
          | some eb => execS rho n eb env s1
          | none => .ok () s1
    | .whileS cond body =>
      (evalE rho n cond env s).andThen fun cv s1 =>
        if is_truthy cv then
          (execS rho n body env s1).andThen fun _ s2 => execS rho n (.whileS cond body) env s2
        else .ok () s1
    | .funcS name params body =>
      let (f, s1) := mkFun s name params body env false
      .ok () (envDefine s1 env name.lexeme (.vfun f))
    | .returnS _ valOpt =>
      (match valOpt with
       | some e => evalE rho n e env s
       | none => .ok .vnil s).andThen fun v s1 => .ret v s1
    | .classS name superOpt methods =>
      match superOpt with
      | none => execClassBody rho name none methods env s
      | some supE =>
        (evalE rho n supE env s).andThen fun sv s1 =>
          match sv with
          | .vclass c => execClassBody rho name (some c) methods env s1
          | _ =>
            match exprVarName supE with
            | some t => .err t "Superclass must be a class." s1
            | none => .crash "AttributeError" s1

termination_by structural fuel

def execStmts (rho : Rho) (fuel : Nat) (stmts : List Stmt) (env : Nat) (s : St) : Res Unit :=
  match fuel with
  | 0 => .fuel
  | .succ n =>
    match stmts with
    | [] => .ok () s
    | st :: rest =>
      (execS rho n st env s).andThen fun _ s1 => execStmts rho n rest env s1

termination_by structural fuel

/-- LoxFunction.call: fresh environment over the closure, parameters bound
to arguments in order, body run as a block; ReturnException is caught here
(initializers ignore the payload and produce the this at depth 0 of the
closure; normal completion produces that this for initializers and nil
otherwise). -/
def callFun (rho : Rho) (fuel : Nat) (f : FunObj) (args : List Value) (s : St) : Res Value :=
  match fuel with
  | 0 => .fuel
  | .succ n =>
    if args.length < f.decl.params.length then .crash "IndexError" s
    else
      let (e, s1) := s.newEnv (paramBinds f args) (some f.closure)
      match execStmts rho n f.decl.body e s1 with
      | .ok _ s2 =>
        if f.isInit then
          match get_at s2 f.closure 0 "this" with
          | some v => .ok v s2
          | none => .crash "KeyError" s2
        else .ok .vnil s2
      | .ret v s2 =>
        if f.isInit then
          match get_at s2 f.closure 0 "this" with
          | some w => .ok w s2
          | none => .crash "KeyError" s2
        else .ok v s2
      | .err t m s2 => .err t m s2
      | .crash m s2 => .crash m s2
      | .fuel => .fuel

termination_by structural fuel

/-- LoxClass.call: allocate the instance, then bind and run init when
present; the result is the instance. -/
def callClass (rho : Rho) (fuel : Nat) (c : Nat) (args : List Value) (s : St) : Res Value :=
  match fuel with
  | 0 => .fuel
  | .succ n =>
    let i := s.insts.length
    let s1 := { s with insts := s.insts ++ [⟨c, []⟩] }
    match find_method s1 c "init" (s1.classes.length + 1) with
    | some initM =>
      let (g, s2) := bindMethod s1 initM (.vinst i)
      (callFun rho n g args s2).andThen fun _ s3 => .ok (.vinst i) s3
    | none => .ok (.vinst i) s1
termination_by structural fuel

end

/-- Interpreter.__init__: a globals environment holding the clock
built-in. -/
def initSt : St :=
  { envs := [⟨[("clock", .vclock)], none⟩], classes := [], insts := [], output := [],
    nextFid := 0, timeNow := PNum.ofNat 1 }

/-- Interpreter.interpret: execute the statements in order; an escaping
RuntimeError is caught and printed with the line of its trigger token
(nothing after it runs, and no flag anywhere is touched).  A top-level
ReturnException or a Python-level crash is not caught here. -/
def interpret (rho : Rho) (fuel : Nat) (stmts : List Stmt) (s : St) : Res Unit :=
  match execStmts rho fuel stmts globalsId s with
  | .err t m s1 =>
    .ok () { s1 with output :=
      s1.output ++ ["Runtime error at line " ++ toString t.line ++ ": " ++ m] }
  | r => r

/-! The for-statement desugaring (parser.py, for_statement lines 129-139,
applied once the four clauses are parsed). -/

def forDesugar (initOpt : Option Stmt) (condOpt : Option Expr) (incrOpt : Option Expr)
    (body : Stmt) : Stmt :=
  let body1 :=
    match incrOpt with
    | some inc => Stmt.block [body, .expression inc]
    | none => body
  let cond :=
    match condOpt with
    | some c => c
    | none => Expr.literal (.boolV true)
  let body2 := Stmt.whileS cond body1
  match initOpt with
  | some i => Stmt.block [i, body2]
  | none => body2

/-- Modelled from the spec: the for statement desugars into
Block(initializer, While(cond, Block(body, Expression(increment)))), with
a missing condition defaulting to literal true and omitted initializer or
increment leaving the corresponding wrapper out. -/
def forSpecDesugar (initOpt : Option Stmt) (condOpt : Option Expr) (incrOpt : Option Expr)
    (body : Stmt) : Stmt :=
  let loop :=
    Stmt.whileS
      (match condOpt with
       | some c => c
       | none => Expr.literal (.boolV true))
      (match incrOpt with
       | some inc => Stmt.block [body, .expression inc]
       | none => body)
  match initOpt with
  | some i => Stmt.block [i, loop]
  | none => loop

/-! Scanner (scanner.py). -/

structure ScSt where
  source : List Char
  tokens : List Token
  start : Nat
  current : Nat
  line : Nat
  out : List String

def nulChar : Char := Char.ofNat 0

def ScSt.atEnd (s : ScSt) : Bool := s.current ≥ s.source.length

def ScSt.charAt (s : ScSt) (i : Nat) : Char := (s.source.get? i).getD nulChar

/-- Scanner.consume_and_advance. -/
def ScSt.advanceC (s : ScSt) : Char × ScSt :=
  if s.atEnd then (nulChar, s)
  else (s.charAt s.current, { s with current := s.current + 1 })

/-- Scanner.consume_if_match. -/
def ScSt.matchC (s : ScSt) (expected : Char) : Bool × ScSt :=
  if s.atEnd then (false, s)
  else if s.charAt s.current ≠ expected then (false, s)
  else (true, { s with current := s.current + 1 })

def ScSt.peekC (s : ScSt) : Char := if s.atEnd then nulChar else s.charAt s.current

def ScSt.peekNext (s : ScSt) : Char :=
  if s.current + 1 ≥ s.source.length then nulChar else s.charAt (s.current + 1)

def ScSt.lexemeNow (s : ScSt) : String :=
  String.mk ((s.source.drop s.start).take (s.current - s.start))

def ScSt.addToken (s : ScSt) (tt : TokenType) (lit : Lit) : ScSt :=
  { s with tokens := s.tokens ++ [⟨tt, s.lexemeNow, lit, s.line⟩] }

def isDigitC (c : Char) : Bool := '0' ≤ c ∧ c ≤ '9'

def isAlphaC (c : Char) : Bool :=
  ('a' ≤ c ∧ c ≤ 'z') || ('A' ≤ c ∧ c ≤ 'Z') || c = '_'

def isAlphaNumC (c : Char) : Bool := isAlphaC c || isDigitC c

/-- Scanner.keywords. -/
def keywordType : String → Option TokenType
  | "and" => some .AND
  | "class" => some .CLASS
  | "else" => some .ELSE
  | "false" => some .FALSE
  | "for" => some .FOR
  | "fun" => some .FUN
  | "if" => some .IF
  | "nil" => some .NIL
  | "or" => some .OR
  | "print" => some .PRINT
  | "return" => some .RETURN
  | "super" => some .SUPER
  | "this" => some .THIS
  | "true" => some .TRUE
  | "var" => some .VAR
  | "while" => some .WHILE
  | _ => none

/-- float(digits) for a scanned number lexeme (digits with optional
fractional part); IEEE rounding abstracted to an exact rational. -/
def parseNumLexeme (cs : List Char) : PNum :=
  let ipart := (cs.takeWhile (· ≠ '.')).foldl (fun acc c => acc * 10 + (c.toNat - 48)) 0
  let fdigits := (cs.dropWhile (· ≠ '.')).drop 1
  let fpart := fdigits.foldl (fun acc c => acc * 10 + (c.toNat - 48)) 0
  let den := 10 ^ fdigits.length
  .fin ⟨(ipart * den + fpart : Nat), den⟩

/-- A bounded while-loop over the scanner state: step while the condition
holds.  Used for comments, strings, numbers and identifiers. -/
def scanWhile (cond : ScSt → Bool) : Nat → ScSt → ScSt
  | 0, s => s
  | fu + 1, s => if cond s then scanWhile cond fu (s.advanceC).2 else s

/-- Scanner.string_literal (after the opening quote). -/
def string_literal (s : ScSt) : ScSt :=
  let s1 := scanWhile (fun t => t.peekC ≠ '"' && !t.atEnd)
    (s.source.length + 1)
    s
  let s2 := { s1 with line := s1.line +
    ((s1.source.drop s.current).take (s1.current - s.current)).countP (· = '\n') }
  if s2.atEnd then
    { s2 with out := s2.out ++ ["Unterminated string at line " ++ toString s2.line] }
  else
    let s3 := (s2.advanceC).2
    let value := String.mk ((s3.source.drop (s3.start + 1)).take (s3.current - 1 - (s3.start + 1)))
    { s3 with tokens := s3.tokens ++ [⟨.STRING, s3.lexemeNow, .strL value, s3.line⟩] }

/-- Scanner.number_literal (after the first digit). -/
def number_literal (s : ScSt) : ScSt :=
  let s1 := scanWhile (fun t => isDigitC t.peekC) (s.source.length + 1) s
  let s2 :=
    if s1.peekC = '.' && isDigitC s1.peekNext then
      scanWhile (fun t => isDigitC t.peekC) (s1.source.length + 1) (s1.advanceC).2
    else s1
  let value := parseNumLexeme ((s2.source.drop s2.start).take (s2.current - s2.start))
  s2.addToken .NUMBER (.numL value)

/-- Scanner.identifier (after the first alpha character). -/
def identifierLex (s : ScSt) : ScSt :=
  let s1 := scanWhile (fun t => isAlphaNumC t.peekC) (s.source.length + 1) s
  let text := String.mk ((s1.source.drop s1.start).take (s1.current - s1.start))
  match keywordType text with
  | some kw => s1.addToken kw .noneL
  | none => s1.addToken .IDENTIFIER .noneL

/-- Scanner.scan_token. -/
def scan_token (s0 : ScSt) : ScSt :=
  let (c, s) := s0.advanceC
  if c = '(' then s.addToken .LEFT_PAREN .noneL
  else if c = ')' then s.addToken .RIGHT_PAREN .noneL
  else if c = '{' then s.addToken .LEFT_BRACE .noneL
  else if c = '}' then s.addToken .RIGHT_BRACE .noneL
  else if c = '-' then s.addToken .MINUS .noneL
  else if c = '+' then s.addToken .PLUS .noneL
  else if c = '*' then s.addToken .STAR .noneL
  else if c = ',' then s.addToken .COMMA .noneL
  else if c = '.' then s.addToken .DOT .noneL
  else if c = ';' then s.addToken .SEMICOLON .noneL
  else if c = '!' then
    let (m, s1) := s.matchC '='
    s1.addToken (if m then .BANG_EQUAL else .BANG) .noneL
  else if c = '=' then
    let (m, s1) := s.matchC '='
    s1.addToken (if m then .EQUAL_EQUAL else .EQUAL) .noneL
  else if c = '<' then
    let (m, s1) := s.matchC '='
    s1.addToken (if m then .LESS_EQUAL else .LESS) .noneL
  else if c = '>' then
    let (m, s1) := s.matchC '='
    s1.addToken (if m then .GREATER_EQUAL else .GREATER) .noneL
  else if c = '/' then
    let (m, s1) := s.matchC '/'
    if m then scanWhile (fun t => t.peekC ≠ '\n' && !t.atEnd) (s1.source.length + 1) s1
    else s1.addToken .SLASH .noneL
  else if c = ' ' || c = '\r' || c = '\t' then s
  else if c = '\n' then { s with line := s.line + 1 }
  else if c = '"' then string_literal s
  else if isDigitC c then number_literal s
  else if isAlphaC c then identifierLex s
  else
    { s with out := s.out ++ ["Can" ++ sq ++ "t recognize char " ++ sq
        ++ String.singleton c ++ sq ++ " on line " ++ toString s.line] }

/-- The scan_tokens driver loop. -/
def scanLoop : Nat → ScSt → ScSt
  | 0, s => s
  | fu + 1, s =>
    if s.atEnd then s
    else scanLoop fu (scan_token { s with start := s.current })

/-- Scanner.scan_tokens. -/
def scan_tokens (source : String) : ScSt :=
  let s0 : ScSt := ⟨source.toList, [], 0, 0, 1, []⟩
  let s1 := scanLoop (source.length + 1) s0
  { s1 with tokens := s1.tokens ++ [⟨.EOF, "", .noneL, s1.line⟩] }

/-! Parser (parser.py).  Parse errors are appended to diags (Python prints
them); the thrown ParseError is the Except.error case.  Expression node
ids are handed out from nextId (the model of Python object identity for
the resolver side table). -/

structure PSt where
  tokens : List Token
  current : Nat
  nextId : Nat
  diags : List String

def eofTok : Token := ⟨.EOF, "", .noneL, 0⟩

def PSt.peekT (p : PSt) : Token := (p.tokens.get? p.current).getD eofTok

def PSt.previousT (p : PSt) : Token := (p.tokens.get? (p.current - 1)).getD eofTok

def PSt.atEndP (p : PSt) : Bool := p.peekT.type == .EOF

def PSt.checkT (p : PSt) (tt : TokenType) : Bool := !p.atEndP && p.peekT.type == tt

def PSt.advanceT (p : PSt) : Token × PSt :=
  let p1 := if p.atEndP then p else { p with current := p.current + 1 }
  (p1.previousT, p1)

/-- Parser.match over a list of token types. -/
def PSt.matchT (p : PSt) (tts : List TokenType) : Bool × PSt :=
  if tts.any (fun tt => p.checkT tt) then (true, (p.advanceT).2) else (false, p)

/-- Parser.error: report (print) and hand back the ParseError to throw.
It touches no flag anywhere. -/
def parser_error (p : PSt) (t : Token) (m : String) : PSt :=
  { p with diags := p.diags ++ ["Parse error at line " ++ toString t.line ++ ": " ++ m] }

def PSt.consumeT (p : PSt) (tt : TokenType) (m : String) : Except Unit Token × PSt :=
  if p.checkT tt then
    let (t, p1) := p.advanceT
    (.ok t, p1)
  else (.error (), parser_error p p.peekT m)

def PSt.freshId (p : PSt) : Nat × PSt := (p.nextId, { p with nextId := p.nextId + 1 })

def syncTypes : List TokenType :=
  [.CLASS, .FUN, .VAR, .FOR, .IF, .WHILE, .PRINT, .RETURN]

def syncLoop : Nat → PSt → PSt
  | 0, p => p
  | fu + 1, p =>
    if p.atEndP then p
    else if p.previousT.type == .SEMICOLON then p
    else if syncTypes.contains p.peekT.type then p
    else syncLoop fu ((p.advanceT).2)

/-- Parser.synchronize: skip to the next statement boundary. -/
def synchronize (p : PSt) : PSt := syncLoop (p.tokens.length + 1) ((p.advanceT).2)

/-- A NUMBER/STRING token literal as a Literal expression payload. -/
def tokLitVal (t : Token) : LitVal :=
  match t.literal with
  | .numL n => .numV n
  | .strL s => .strV s
  | .noneL => .nilV

mutual

/-- Parser.declaration: catches ParseError, synchronizes, and yields the
None sentinel (which every downstream consumer skips). -/
def parseDecl (fuel : Nat) (p : PSt) : Option Stmt × PSt :=
  match fuel with
  | 0 => (none, p)
  | .succ n =>
    let attempt : Except Unit Stmt × PSt :=
      let (m1, p1) := p.matchT [.CLASS]
      if m1 then classDecl n p1
      else
        let (m2, p2) := p1.matchT [.FUN]
        if m2 then functionRule n "function" p2
        else
          let (m3, p3) := p2.matchT [.VAR]
          if m3 then varDecl n p3
          else statementRule n p3
    match attempt with
    | (.ok st, p4) => (some st, p4)
    | (.error _, p4) => (none, synchronize p4)

def classDecl (fuel : Nat) (p : PSt) : Except Unit Stmt × PSt :=
  match fuel with
  | 0 => (.error (), p)
  | .succ n =>
    match p.consumeT .IDENTIFIER "Expected class name." with
    | (.error e, p1) => (.error e, p1)
    | (.ok name, p1) =>
      let (hasSup, p2) := p1.matchT [.LESS]
      let step : Except Unit (Option Expr) × PSt :=
        if hasSup then
          match p2.consumeT .IDENTIFIER "Expected superclass name." with
          | (.error e, p3) => (.error e, p3)
          | (.ok _, p3) =>
            let (nid, p4) := p3.freshId
            (.ok (some (.variableE p4.previousT nid)), p4)
        else (.ok none, p2)
      match step with
      | (.error e, p3) => (.error e, p3)
      | (.ok supOpt, p3) =>
        match p3.consumeT .LEFT_BRACE ("Expected " ++ sq ++ "\x7b" ++ sq ++ " before class body.") with
        | (.error e, p4) => (.error e, p4)
        | (.ok _, p4) =>
          match classMethods n [] p4 with
          | (.error e, p5) => (.error e, p5)
          | (.ok methods, p5) =>
            match p5.consumeT .RIGHT_BRACE ("Expected " ++ sq ++ "\x7d" ++ sq ++ " after class body.") with
            | (.error e, p6) => (.error e, p6)
            | (.ok _, p6) => (.ok (.classS name supOpt methods), p6)

def classMethods (fuel : Nat) (acc : List Stmt) (p : PSt) : Except Unit (List Stmt) × PSt :=
  match fuel with
  | 0 => (.error (), p)
  | .succ n =>
    if !p.checkT .RIGHT_BRACE && !p.atEndP then
      match functionRule n "method" p with
      | (.error e, p1) => (.error e, p1)
      | (.ok m, p1) => classMethods n (acc ++ [m]) p1
    else (.ok acc, p)

def functionRule (fuel : Nat) (kind : String) (p : PSt) : Except Unit Stmt × PSt :=
  match fuel with
  | 0 => (.error (), p)
  | .succ n =>
    match p.consumeT .IDENTIFIER ("Expected " ++ kind ++ " name.") with
    | (.error e, p1) => (.error e, p1)
    | (.ok name, p1) =>
      match p1.consumeT .LEFT_PAREN ("Expected " ++ sq ++ "(" ++ sq ++ " after " ++ kind ++ " name.") with
      | (.error e, p2) => (.error e, p2)
      | (.ok _, p2) =>
        let firstStep : Except Unit (List Token) × PSt :=
          if !p2.checkT .RIGHT_PAREN then
            match p2.consumeT .IDENTIFIER "Expected parameter name." with
            | (.error e, p3) => (.error e, p3)
            | (.ok t, p3) => paramsLoop n [t] p3
          else (.ok [], p2)
        match firstStep with
        | (.error e, p3) => (.error e, p3)
        | (.ok params, p3) =>
          match p3.consumeT .RIGHT_PAREN ("Expected " ++ sq ++ ")" ++ sq ++ " after parameters.") with
          | (.error e, p4) => (.error e, p4)
          | (.ok _, p4) =>
            match p4.consumeT .LEFT_BRACE ("Expected " ++ sq ++ "\x7b" ++ sq ++ " before " ++ kind ++ " body.") with
            | (.error e, p5) => (.error e, p5)
            | (.ok _, p5) =>
              match blockRule n [] p5 with
              | (.error e, p6) => (.error e, p6)
              | (.ok body, p6) => (.ok (.funcS name params body), p6)

def paramsLoop (fuel : Nat) (acc : List Token) (p : PSt) : Except Unit (List Token) × PSt :=
  match fuel with
  | 0 => (.error (), p)
  | .succ n =>
    let (m, p1) := p.matchT [.COMMA]
    if m then
      let p2 := if acc.length ≥ 255 then
        parser_error p1 p1.peekT ("Can" ++ sq ++ "t have more than 255 parameters.")
        else p1
      match p2.consumeT .IDENTIFIER "Expected parameter name." with
      | (.error e, p3) => (.error e, p3)
      | (.ok t, p3) => paramsLoop n (acc ++ [t]) p3
    else (.ok acc, p1)

def varDecl (fuel : Nat) (p : PSt) : Except Unit Stmt × PSt :=
  match fuel with
  | 0 => (.error (), p)
  | .succ n =>
    match p.consumeT .IDENTIFIER "Expected variable name." with
    | (.error e, p1) => (.error e, p1)
    | (.ok name, p1) =>
      let (hasInit, p2) := p1.matchT [.EQUAL]
      let step : Except Unit (Option Expr) × PSt :=
        if hasInit then
          match expressionRule n p2 with
          | (.error e, p3) => (.error e, p3)
          | (.ok e, p3) => (.ok (some e), p3)
        else (.ok none, p2)
      match step with
      | (.error e, p3) => (.error e, p3)
      | (.ok initOpt, p3) =>
        match p3.consumeT .SEMICOLON ("Expected " ++ sq ++ ";" ++ sq ++ " after variable declaration.") with
        | (.error e, p4) => (.error e, p4)
        | (.ok _, p4) => (.ok (.varS name initOpt), p4)

def statementRule (fuel : Nat) (p : PSt) : Except Unit Stmt × PSt :=
  match fuel with
  | 0 => (.error (), p)
  | .succ n =>
    let (m1, p1) := p.matchT [.FOR]
    if m1 then forStatement n p1
    else
      let (m2, p2) := p1.matchT [.IF]
      if m2 then ifStatement n p2
      else
        let (m3, p3) := p2.matchT [.PRINT]
        if m3 then printStatement n p3
        else
          let (m4, p4) := p3.matchT [.RETURN]
          if m4 then returnStatement n p4
          else
            let (m5, p5) := p4.matchT [.WHILE]
            if m5 then whileStatement n p5
            else
              let (m6, p6) := p5.matchT [.LEFT_BRACE]
              if m6 then
                match blockRule n [] p6 with
                | (.error e, p7) => (.error e, p7)
                | (.ok stmts, p7) => (.ok (.block stmts), p7)
              else exprStatement n p6

def forStatement (fuel : Nat) (p : PSt) : Except Unit Stmt × PSt :=
  match fuel with
  | 0 => (.error (), p)
  | .succ n =>
    match p.consumeT .LEFT_PAREN ("Expected " ++ sq ++ "(" ++ sq ++ " after " ++ sq ++ "for" ++ sq ++ ".") with
    | (.error e, p1) => (.error e, p1)
    | (.ok _, p1) =>
      let initStep : Except Unit (Option Stmt) × PSt :=
        let (m1, q1) := p1.matchT [.SEMICOLON]
        if m1 then (.ok none, q1)
        else
          let (m2, q2) := q1.matchT [.VAR]
          if m2 then
            match varDecl n q2 with
            | (.error e, q3) => (.error e, q3)
            | (.ok st, q3) => (.ok (some st), q3)
          else
            match exprStatement n q2 with
            | (.error e, q3) => (.error e, q3)
            | (.ok st, q3) => (.ok (some st), q3)
      match initStep with
      | (.error e, p2) => (.error e, p2)
      | (.ok initOpt, p2) =>
        let condStep : Except Unit (Option Expr) × PSt :=
          if !p2.checkT .SEMICOLON then
            match expressionRule n p2 with
            | (.error e, q) => (.error e, q)
            | (.ok c, q) => (.ok (some c), q)
          else (.ok none, p2)
        match condStep with
        | (.error e, p3) => (.error e, p3)
        | (.ok condOpt, p3) =>
          match p3.consumeT .SEMICOLON ("Expected " ++ sq ++ ";" ++ sq ++ " after loop condition.") with
          | (.error e, p4) => (.error e, p4)
          | (.ok _, p4) =>
            let incrStep : Except Unit (Option Expr) × PSt :=
              if !p4.checkT .RIGHT_PAREN then
                match expressionRule n p4 with
                | (.error e, q) => (.error e, q)
                | (.ok i, q) => (.ok (some i), q)
              else (.ok none, p4)
            match incrStep with
            | (.error e, p5) => (.error e, p5)
            | (.ok incrOpt, p5) =>
              match p5.consumeT .RIGHT_PAREN ("Expected " ++ sq ++ ")" ++ sq ++ " after for clauses.") with
              | (.error e, p6) => (.error e, p6)
              | (.ok _, p6) =>
                match statementRule n p6 with
                | (.error e, p7) => (.error e, p7)
                | (.ok body, p7) => (.ok (forDesugar initOpt condOpt incrOpt body), p7)

def ifStatement (fuel : Nat) (p : PSt) : Except Unit Stmt × PSt :=
  match fuel with
  | 0 => (.error (), p)
  | .succ n =>
    match p.consumeT .LEFT_PAREN ("Expected " ++ sq ++ "(" ++ sq ++ " after " ++ sq ++ "if" ++ sq ++ ".") with
    | (.error e, p1) => (.error e, p1)
    | (.ok _, p1) =>
      match expressionRule n p1 with
      | (.error e, p2) => (.error e, p2)
      | (.ok cond, p2) =>
        match p2.consumeT .RIGHT_PAREN ("Expected " ++ sq ++ ")" ++ sq ++ " after if condition.") with
        | (.error e, p3) => (.error e, p3)
        | (.ok _, p3) =>
          match statementRule n p3 with
          | (.error e, p4) => (.error e, p4)
          | (.ok thenB, p4) =>
            let (hasElse, p5) := p4.matchT [.ELSE]
            if hasElse then
              match statementRule n p5 with
              | (.error e, p6) => (.error e, p6)
              | (.ok elseB, p6) => (.ok (.ifS cond thenB (some elseB)), p6)
            else (.ok (.ifS cond thenB none), p5)

def printStatement (fuel : Nat) (p : PSt) : Except Unit Stmt × PSt :=
  match fuel with
  | 0 => (.error (), p)
  | .succ n =>
    match expressionRule n p with
    | (.error e, p1) => (.error e, p1)
    | (.ok v, p1) =>
      match p1.consumeT .SEMICOLON ("Expected " ++ sq ++ ";" ++ sq ++ " after value.") with
      | (.error e, p2) => (.error e, p2)
      | (.ok _, p2) => (.ok (.printS v), p2)

def returnStatement (fuel : Nat) (p : PSt) : Except Unit Stmt × PSt :=
  match fuel with
  | 0 => (.error (), p)
  | .succ n =>
    let keyword := p.previousT
    let step : Except Unit (Option Expr) × PSt :=
      if !p.checkT .SEMICOLON then
        match expressionRule n p with
        | (.error e, q) => (.error e, q)
        | (.ok v, q) => (.ok (some v), q)
      else (.ok none, p)
    match step with
    | (.error e, p1) => (.error e, p1)
    | (.ok valOpt, p1) =>
      match p1.consumeT .SEMICOLON ("Expected " ++ sq ++ ";" ++ sq ++ " after return value.") with
      | (.error e, p2) => (.error e, p2)
      | (.ok _, p2) => (.ok (.returnS keyword valOpt), p2)

def whileStatement (fuel : Nat) (p : PSt) : Except Unit Stmt × PSt :=
  match fuel with
  | 0 => (.error (), p)
  | .succ n =>
    match p.consumeT .LEFT_PAREN ("Expected " ++ sq ++ "(" ++ sq ++ " after " ++ sq ++ "while" ++ sq ++ ".") with
    | (.error e, p1) => (.error e, p1)
    | (.ok _, p1) =>
      match expressionRule n p1 with
      | (.error e, p2) => (.error e, p2)
      | (.ok cond, p2) =>
        match p2.consumeT .RIGHT_PAREN ("Expected " ++ sq ++ ")" ++ sq ++ " after condition.") with
        | (.error e, p3) => (.error e, p3)
        | (.ok _, p3) =>
          match statementRule n p3 with
          | (.error e, p4) => (.error e, p4)
          | (.ok body, p4) => (.ok (.whileS cond body), p4)

/-- Parser.block: declarations until the closing brace.  In Python the
list can contain None sentinels after a recovered parse error; every
consumer (resolver, interpreter) skips them, so the model drops them at
construction. -/
def blockRule (fuel : Nat) (acc : List Stmt) (p : PSt) : Except Unit (List Stmt) × PSt :=
  match fuel with
  | 0 => (.error (), p)
  | .succ n =>
    if !p.checkT .RIGHT_BRACE && !p.atEndP then
      match parseDecl n p with
      | (some st, p1) => blockRule n (acc ++ [st]) p1
      | (none, p1) => blockRule n acc p1
    else
      match p.consumeT .RIGHT_BRACE ("Expected " ++ sq ++ "\x7d" ++ sq ++ " after block.") with
      | (.error e, p1) => (.error e, p1)
      | (.ok _, p1) => (.ok acc, p1)

def exprStatement (fuel : Nat) (p : PSt) : Except Unit Stmt × PSt :=
  match fuel with
  | 0 => (.error (), p)
  | .succ n =>
    match expressionRule n p with
    | (.error e, p1) => (.error e, p1)
    | (.ok v, p1) =>
      match p1.consumeT .SEMICOLON ("Expected " ++ sq ++ ";" ++ sq ++ " after expression.") with
      | (.error e, p2) => (.error e, p2)
      | (.ok _, p2) => (.ok (.expression v), p2)

def expressionRule (fuel : Nat) (p : PSt) : Except Unit Expr × PSt :=
  match fuel with
  | 0 => (.error (), p)
  | .succ n => assignmentRule n p

def assignmentRule (fuel : Nat) (p : PSt) : Except Unit Expr × PSt :=
  match fuel with
  | 0 => (.error (), p)
  | .succ n =>
    match orRule n p with
    | (.error e, p1) => (.error e, p1)
    | (.ok lhs, p1) =>
      let (m, p2) := p1.matchT [.EQUAL]
      if m then
        let equals := p2.previousT
        match assignmentRule n p2 with
        | (.error e, p3) => (.error e, p3)
        | (.ok value, p3) =>
          match lhs with
          | .variableE name _ =>
            let (nid, p4) := p3.freshId
            (.ok (.assignE name value nid), p4)
          | .getE obj name => (.ok (.setE obj name value), p3)
          | _ => (.ok lhs, parser_error p3 equals "Invalid assignment target.")
      else (.ok lhs, p1)

def orRule (fuel : Nat) (p : PSt) : Except Unit Expr × PSt :=
  match fuel with
  | 0 => (.error (), p)
  | .succ n =>
    match andRule n p with
    | (.error e, p1) => (.error e, p1)
    | (.ok e0, p1) => orLoop n e0 p1

def orLoop (fuel : Nat) (acc : Expr) (p : PSt) : Except Unit Expr × PSt :=
  match fuel with
  | 0 => (.error (), p)
  | .succ n =>
    let (m, p1) := p.matchT [.OR]
    if m then
      let op := p1.previousT
      match andRule n p1 with
      | (.error e, p2) => (.error e, p2)
      | (.ok r, p2) => orLoop n (.logical acc op r) p2
    else (.ok acc, p1)

def andRule (fuel : Nat) (p : PSt) : Except Unit Expr × PSt :=
  match fuel with
  | 0 => (.error (), p)
  | .succ n =>
    match equalityRule n p with
    | (.error e, p1) => (.error e, p1)
    | (.ok e0, p1) => andLoop n e0 p1

def andLoop (fuel : Nat) (acc : Expr) (p : PSt) : Except Unit Expr × PSt :=
  match fuel with
  | 0 => (.error (), p)
  | .succ n =>
    let (m, p1) := p.matchT [.AND]
    if m then
      let op := p1.previousT
      match equalityRule n p1 with
      | (.error e, p2) => (.error e, p2)
      | (.ok r, p2) => andLoop n (.logical acc op r) p2
    else (.ok acc, p1)

def equalityRule (fuel : Nat) (p : PSt) : Except Unit Expr × PSt :=
  match fuel with
  | 0 => (.error (), p)
  | .succ n =>
    match comparisonRule n p with
    | (.error e, p1) => (.error e, p1)
    | (.ok e0, p1) => equalityLoop n e0 p1

def equalityLoop (fuel : Nat) (acc : Expr) (p : PSt) : Except Unit Expr × PSt :=
  match fuel with
  | 0 => (.error (), p)
  | .succ n =>
    let (m, p1) := p.matchT [.BANG_EQUAL, .EQUAL_EQUAL]
    if m then
      let op := p1.previousT
      match comparisonRule n p1 with
      | (.error e, p2) => (.error e, p2)
      | (.ok r, p2) => equalityLoop n (.binary acc op r) p2
    else (.ok acc, p1)

def comparisonRule (fuel : Nat) (p : PSt) : Except Unit Expr × PSt :=
  match fuel with
  | 0 => (.error (), p)
  | .succ n =>
    match termRule n p with
    | (.error e, p1) => (.error e, p1)
    | (.ok e0, p1) => comparisonLoop n e0 p1

def comparisonLoop (fuel : Nat) (acc : Expr) (p : PSt) : Except Unit Expr × PSt :=
  match fuel with
  | 0 => (.error (), p)
  | .succ n =>
    let (m, p1) := p.matchT [.GREATER, .GREATER_EQUAL, .LESS, .LESS_EQUAL]
    if m then
      let op := p1.previousT
      match termRule n p1 with
      | (.error e, p2) => (.error e, p2)
      | (.ok r, p2) => comparisonLoop n (.binary acc op r) p2
    else (.ok acc, p1)

def termRule (fuel : Nat) (p : PSt) : Except Unit Expr × PSt :=
  match fuel with
  | 0 => (.error (), p)
  | .succ n =>
    match factorRule n p with
    | (.error e, p1) => (.error e, p1)
    | (.ok e0, p1) => termLoop n e0 p1

def termLoop (fuel : Nat) (acc : Expr) (p : PSt) : Except Unit Expr × PSt :=
  match fuel with
  | 0 => (.error (), p)
  | .succ n =>
    let (m, p1) := p.matchT [.MINUS, .PLUS]
    if m then
      let op := p1.previousT
      match factorRule n p1 with
      | (.error e, p2) => (.error e, p2)
      | (.ok r, p2) => termLoop n (.binary acc op r) p2
    else (.ok acc, p1)

def factorRule (fuel : Nat) (p : PSt) : Except Unit Expr × PSt :=
  match fuel with
  | 0 => (.error (), p)
  | .succ n =>
    match unaryRule n p with
    | (.error e, p1) => (.error e, p1)
    | (.ok e0, p1) => factorLoop n e0 p1

def factorLoop (fuel : Nat) (acc : Expr) (p : PSt) : Except Unit Expr × PSt :=
  match fuel with
  | 0 => (.error (), p)
  | .succ n =>
    let (m, p1) := p.matchT [.SLASH, .STAR]
    if m then
      let op := p1.previousT
      match unaryRule n p1 with
      | (.error e, p2) => (.error e, p2)
      | (.ok r, p2) => factorLoop n (.binary acc op r) p2
    else (.ok acc, p1)

def unaryRule (fuel : Nat) (p : PSt) : Except Unit Expr × PSt :=
  match fuel with
  | 0 => (.error (), p)
  | .succ n =>
    let (m, p1) := p.matchT [.BANG, .MINUS]
    if m then
      let op := p1.previousT
      match unaryRule n p1 with
      | (.error e, p2) => (.error e, p2)
      | (.ok r, p2) => (.ok (.unary op r), p2)
    else callRule n p1

def callRule (fuel : Nat) (p : PSt) : Except Unit Expr × PSt :=
  match fuel with
  | 0 => (.error (), p)
  | .succ n =>
    match primaryRule n p with
    | (.error e, p1) => (.error e, p1)
    | (.ok e0, p1) => callLoop n e0 p1

def callLoop (fuel : Nat) (acc : Expr) (p : PSt) : Except Unit Expr × PSt :=
  match fuel with
  | 0 => (.error (), p)
  | .succ n =>
    let (m, p1) := p.matchT [.LEFT_PAREN]
    if m then
      match finishCall n acc p1 with
      | (.error e, p2) => (.error e, p2)
      | (.ok c, p2) => callLoop n c p2
    else
      let (m2, p2) := p1.matchT [.DOT]
      if m2 then
        match p2.consumeT .IDENTIFIER ("Expected property name after " ++ sq ++ "." ++ sq ++ ".") with
        | (.error e, p3) => (.error e, p3)
        | (.ok name, p3) => callLoop n (.getE acc name) p3
      else (.ok acc, p2)

def finishCall (fuel : Nat) (callee : Expr) (p : PSt) : Except Unit Expr × PSt :=
  match fuel with
  | 0 => (.error (), p)
  | .succ n =>
    let argsStep : Except Unit (List Expr) × PSt :=
      if !p.checkT .RIGHT_PAREN then
        match expressionRule n p with
        | (.error e, p1) => (.error e, p1)
        | (.ok a, p1) => argsLoop n [a] p1
      else (.ok [], p)
    match argsStep with
    | (.error e, p1) => (.error e, p1)
    | (.ok args, p1) =>
      match p1.consumeT .RIGHT_PAREN ("Expected " ++ sq ++ ")" ++ sq ++ " after arguments.") with
      | (.error e, p2) => (.error e, p2)
      | (.ok paren, p2) => (.ok (.callE callee paren args), p2)

def argsLoop (fuel : Nat) (acc : List Expr) (p : PSt) : Except Unit (List Expr) × PSt :=
  match fuel with
  | 0 => (.error (), p)
  | .succ n =>
    let (m, p1) := p.matchT [.COMMA]
    if m then
      let p2 := if acc.length ≥ 255 then
        parser_error p1 p1.peekT ("Can" ++ sq ++ "t have more than 255 arguments.")
        else p1
      match expressionRule n p2 with
      | (.error e, p3) => (.error e, p3)
      | (.ok a, p3) => argsLoop n (acc ++ [a]) p3
    else (.ok acc, p1)

def primaryRule (fuel : Nat) (p : PSt) : Except Unit Expr × PSt :=
  match fuel with
  | 0 => (.error (), p)
  | .succ n =>
    let (mF, p1) := p.matchT [.FALSE]
    if mF then (.ok (.literal (.boolV false)), p1)
    else
      let (mT, p2) := p1.matchT [.TRUE]
      if mT then (.ok (.literal (.boolV true)), p2)
      else
        let (mN, p3) := p2.matchT [.NIL]
        if mN then (.ok (.literal .nilV), p3)
        else
          let (mL, p4) := p3.matchT [.NUMBER, .STRING]
          if mL then (.ok (.literal (tokLitVal p4.previousT)), p4)
          else
            let (mS, p5) := p4.matchT [.SUPER]
            if mS then
              let keyword := p5.previousT
              match p5.consumeT .DOT ("Expected " ++ sq ++ "." ++ sq ++ " after " ++ sq ++ "super" ++ sq ++ ".") with
              | (.error e, p6) => (.error e, p6)
              | (.ok _, p6) =>
                match p6.consumeT .IDENTIFIER "Expected superclass method name." with
                | (.error e, p7) => (.error e, p7)
                | (.ok methodTok, p7) =>
                  let (nid, p8) := p7.freshId
                  (.ok (.superE keyword methodTok nid), p8)
            else
              let (mTh, p6) := p5.matchT [.THIS]
              if mTh then
                let (nid, p7) := p6.freshId
                (.ok (.thisE p7.previousT nid), p7)
              else
                let (mI, p7) := p6.matchT [.IDENTIFIER]
                if mI then
                  let (nid, p8) := p7.freshId
                  (.ok (.variableE p8.previousT nid), p8)
                else
                  let (mP, p8) := p7.matchT [.LEFT_PAREN]
                  if mP then
                    match expressionRule n p8 with
                    | (.error e, p9) => (.error e, p9)
                    | (.ok inner, p9) =>
                      match p9.consumeT .RIGHT_PAREN ("Expected " ++ sq ++ ")" ++ sq ++ " after expression.") with
                      | (.error e, p10) => (.error e, p10)
                      | (.ok _, p10) => (.ok (.grouping inner), p10)
                  else (.error (), parser_error p8 p8.peekT "Expected expression.")

end

/-- Parser.parse: declarations until EOF (None sentinels are skipped by
all consumers, so the model drops them here). -/
def parseLoop (fuel : Nat) (acc : List Stmt) (p : PSt) : List Stmt × PSt :=
  match fuel with
  | 0 => (acc, p)
  | .succ n =>
    if !p.atEndP then
      match parseDecl fuel p with
      | (some st, p1) => parseLoop n (acc ++ [st]) p1
      | (none, p1) => parseLoop n acc p1
    else (acc, p)

def parseProgram (tokens : List Token) (fuel : Nat) : List Stmt × PSt :=
  parseLoop fuel [] ⟨tokens, 0, 0, []⟩

/-! Resolver (resolver.py).  Scope stack with the innermost scope at the
head; diagnostics are printed (collected) and the pass continues; the
side table (locals) maps expression node ids to depths. -/

inductive FunctionType where
  | fNone | fFunction | fInitFT | fMethod
deriving DecidableEq

inductive ClassType where
  | cNone | cClass | cSubclass
deriving DecidableEq

structure RSt where
  scopes : List (List (String × Bool))
  currentFunction : FunctionType
  currentClass : ClassType
  locals : Rho
  diags : List String

def alookupB : List (String × Bool) → String → Option Bool
  | [], _ => none
  | (k, b) :: rest, n => if k == n then some b else alookupB rest n

def asetB : List (String × Bool) → String → Bool → List (String × Bool)
  | [], n, b => [(n, b)]
  | (k, c) :: rest, n, b => if k == n then (n, b) :: rest else (k, c) :: asetB rest n b

def rset : Rho → Nat → Nat → Rho
  | [], k, d => [(k, d)]
  | (k0, d0) :: rest, k, d => if k0 == k then (k, d) :: rest else (k0, d0) :: rset rest k d

def RSt.diag (r : RSt) (m : String) : RSt := { r with diags := r.diags ++ [m] }

def RSt.beginScope (r : RSt) : RSt := { r with scopes := [] :: r.scopes }

def RSt.endScope (r : RSt) : RSt := { r with scopes := r.scopes.tail }

def RSt.scopeSetTop (r : RSt) (n : String) (b : Bool) : RSt :=
  match r.scopes with
  | [] => r
  | sc :: rest => { r with scopes := asetB sc n b :: rest }

/-- Resolver.declare. -/
def RSt.declareR (r : RSt) (name : Token) : RSt :=
  match r.scopes with
  | [] => r
  | sc :: _ =>
    let r1 :=
      if (alookupB sc name.lexeme).isSome then
        r.diag ("Error: Already a variable with name " ++ sq ++ name.lexeme ++ sq
          ++ " in this scope.")
      else r
    r1.scopeSetTop name.lexeme false

/-- Resolver.define. -/
def RSt.defineR (r : RSt) (name : Token) : RSt :=
  match r.scopes with
  | [] => r
  | _ :: _ => r.scopeSetTop name.lexeme true

/-- Resolver.resolve_local: scan the scope stack from innermost outward;
the recorded depth is the number of hops from the innermost scope. -/
def RSt.resolveLocal (r : RSt) (nid : Nat) (name : Token) : RSt :=
  match r.scopes.findIdx? (fun sc => (alookupB sc name.lexeme).isSome) with
  | some j => { r with locals := rset r.locals nid j }
  | none => r

mutual

def resolveS (fuel : Nat) (stmt : Stmt) (r : RSt) : RSt :=
  match fuel with
  | 0 => r
  | .succ n =>
    match stmt with
    | .block stmts => ((resolveList n stmts r.beginScope)).endScope
    | .classS name superOpt methods =>
      let enclosingClass := r.currentClass
      let r1 := { r with currentClass := .cClass }
      let r2 := (r1.declareR name).defineR name
      let r3 :=
        match superOpt with
        | some supE =>
          match exprVarName supE with
          | some supTok =>
            if name.lexeme == supTok.lexeme then
              r2.diag ("Error: A class can" ++ sq ++ "t inherit from itself.")
            else r2
          | none => r2
        | none => r2
      let r4 :=
        match superOpt with
        | some supE => resolveE n supE { r3 with currentClass := .cSubclass }
        | none => r3
      let r5 :=
        match superOpt with
        | some _ => (r4.beginScope).scopeSetTop "super" true
        | none => r4
      let r6 := (r5.beginScope).scopeSetTop "this" true
      let r7 := resolveMethods n methods r6
      let r8 := r7.endScope
      let r9 :=
        match superOpt with
        | some _ => r8.endScope
        | none => r8
      { r9 with currentClass := enclosingClass }
    | .expression e => resolveE n e r
    | .funcS name params body =>
      let r1 := (r.declareR name).defineR name
      resolveFunction n params body .fFunction r1
    | .ifS cond thenB elseB =>
      let r1 := resolveS n thenB (resolveE n cond r)
      match elseB with
      | some eb => resolveS n eb r1
      | none => r1
    | .printS e => resolveE n e r
    | .returnS _ valOpt =>
      let r1 :=
        if r.currentFunction = .fNone then
          r.diag ("Error: Can" ++ sq ++ "t return from top-level code.")
        else r
      match valOpt with
      | some v =>
        let r2 :=
          if r1.currentFunction = .fInitFT then
            r1.diag ("Error: Can" ++ sq ++ "t return a value from an initializer.")
          else r1
        resolveE n v r2
      | none => r1
    | .varS name initOpt =>
      let r1 := r.declareR name
      let r2 :=
        match initOpt with
        | some e => resolveE n e r1
        | none => r1
      r2.defineR name
    | .whileS cond body => resolveS n body (resolveE n cond r)

def resolveMethods (fuel : Nat) (methods : List Stmt) (r : RSt) : RSt :=
  match fuel with
  | 0 => r
  | .succ n =>
    match methods with
    | [] => r
    | .funcS name params body :: rest =>
      let ft : FunctionType := if name.lexeme == "init" then .fInitFT else .fMethod
      resolveMethods n rest (resolveFunction n params body ft r)
    | _ :: rest => resolveMethods n rest r

def resolveFunction (fuel : Nat) (params : List Token) (body : List Stmt)
    (ftype : FunctionType) (r : RSt) : RSt :=
  match fuel with
  | 0 => r
  | .succ n =>
    let enclosing := r.currentFunction
    let r1 := { r with currentFunction := ftype }
    let r2 := params.foldl (fun acc p => (acc.declareR p).defineR p) r1.beginScope
    let r3 := (resolveList n body r2).endScope
    { r3 with currentFunction := enclosing }

def resolveList (fuel : Nat) (stmts : List Stmt) (r : RSt) : RSt :=
  match fuel with
  | 0 => r
  | .succ n =>
    match stmts with
    | [] => r
    | st :: rest => resolveList n rest (resolveS n st r)

def resolveE (fuel : Nat) (e : Expr) (r : RSt) : RSt :=
  match fuel with
  | 0 => r
  | .succ n =>
    match e with
    | .assignE name value nid => (resolveE n value r).resolveLocal nid name
    | .binary left _ right => resolveE n right (resolveE n left r)
    | .callE callee _ args => resolveArgs n args (resolveE n callee r)
    | .getE obj _ => resolveE n obj r
    | .grouping inner => resolveE n inner r
    | .literal _ => r
    | .logical left _ right => resolveE n right (resolveE n left r)
    | .setE obj _ value => resolveE n obj (resolveE n value r)
    | .superE keyword _ nid =>
      let r1 :=
        if r.currentClass = .cNone then
          r.diag ("Error: Can" ++ sq ++ "t use " ++ sq ++ "super" ++ sq ++ " outside of a class.")
        else if r.currentClass ≠ .cSubclass then
          r.diag ("Error: Can" ++ sq ++ "t use " ++ sq ++ "super" ++ sq
            ++ " in a class with no superclass.")
        else r
      r1.resolveLocal nid keyword
    | .thisE keyword nid =>
      if r.currentClass = .cNone then
        r.diag ("Error: Can" ++ sq ++ "t use " ++ sq ++ "this" ++ sq ++ " outside of a class.")
      else r.resolveLocal nid keyword
    | .unary _ right => resolveE n right r
    | .variableE name nid =>
      let r1 :=
        match r.scopes with
        | sc :: _ =>
          if alookupB sc name.lexeme == some false then
            r.diag ("Error: Can" ++ sq ++ "t read local variable " ++ sq ++ name.lexeme
              ++ sq ++ " in its own initializer.")
          else r
        | [] => r
      r1.resolveLocal nid name

def resolveArgs (fuel : Nat) (args : List Expr) (r : RSt) : RSt :=
  match fuel with
  | 0 => r
  | .succ n =>
    match args with
    | [] => r
    | a :: rest => resolveArgs n rest (resolveE n a r)

end

/-- Resolver.resolve_statements from a fresh resolver. -/
def resolveStatements (stmts : List Stmt) (fuel : Nat) : RSt :=
  resolveList fuel stmts ⟨[], .fNone, .cNone, [], []⟩

/-! The host wrapper (pylox.py). -/

/-- Lox.had_error / had_runtime_error.  Nothing in the code base ever sets
either flag to True: Parser.error and the resolver only print, and
Interpreter.interpret catches RuntimeError and prints without touching
them. -/
structure LoxFlags where
  hadError : Bool
  hadRuntimeError : Bool

/-- Lox.__init__. -/
def initFlags : LoxFlags := ⟨false, false⟩

def resOutput : Res Unit → List String
  | .ok _ s => s.output
  | .err _ _ s => s.output
  | .ret _ s => s.output
  | .crash _ s => s.output
  | .fuel => []

structure RunResult where
  flags : LoxFlags
  stdout : List String
  result : Res Unit

/-- Lox.run on a fresh Lox instance: scan, parse, check had_error, resolve,
check had_error, interpret.  The stdout field lists everything printed, in
order: scanner diagnostics, parse errors, resolver errors, then program
output (with a caught runtime error reported at the end). -/
def loxRun (source : String) (fuel : Nat) : RunResult :=
  let sc := scan_tokens source
  let (stmts, pst) := parseProgram sc.tokens fuel
  if initFlags.hadError then ⟨initFlags, sc.out ++ pst.diags, .ok () initSt⟩
  else
    let rst := resolveStatements stmts fuel
    if initFlags.hadError then ⟨initFlags, sc.out ++ pst.diags ++ rst.diags, .ok () initSt⟩
    else
      let r := interpret rst.locals fuel stmts initSt
      ⟨initFlags, sc.out ++ pst.diags ++ rst.diags ++ resOutput r, r⟩

/-- Lox.run_file exit status after run (lines 35-38): 65 for a static
error, 70 for a runtime error, otherwise normal exit. -/
def run_file_exit (flags : LoxFlags) : Nat :=
  if flags.hadError then 65 else if flags.hadRuntimeError then 70 else 0

/-! Spec-side definitions, used to compare the code against the
specification's wording. -/

/-- Modelled from the spec (section 4.7): two values are equal iff they
are the same variant and, within it, bitwise-equal for booleans and
strings, mathematically equal for numbers (NaN unequal to itself), and
identical for instances, classes and functions; nil equals only nil, and
values of different variants are never equal. -/
def specEqStrict : Value → Value → Bool
  | .vnil, .vnil => true
  | .vbool a, .vbool b => a == b
  | .vnum a, .vnum b => PNum.eqb a b
  | .vstr a, .vstr b => a == b
  | .vfun f, .vfun g => f.fid == g.fid
  | .vclass a, .vclass b => a == b
  | .vinst a, .vinst b => a == b
  | .vclock, .vclock => true
  | _, _ => false

/-- isinstance(x, LoxInstance). -/
def isInstV : Value → Bool
  | .vinst _ => true
  | _ => false

/-- Modelled from the spec: the environment exactly distance hops outward
from e, taken one enclosing hop at a time (0 hops is e itself). -/
def specHops (s : St) (e : Nat) : Nat → Option Nat
  | 0 => some e
  | d + 1 => (specHops s e d).bind fun a => (s.envGet a).enclosing

/-- A two-environment chain used as a concrete witness input: the outer
environment holds x, the inner one (enclosing = 0) holds y. -/
def envChainEx : St :=
  { envs := [⟨[("x", .vnil)], none⟩, ⟨[("y", .vbool true)], some 0⟩],
    classes := [], insts := [], output := [], nextFid := 0, timeNow := PNum.ofNat 1 }

/-! Helper lemmas. -/

theorem Res.isNormal_andThen {α β : Type} (r : Res α) (g : α → St → Res β)
    (h : ∀ a s, (g a s).isNormal = false) : (r.andThen g).isNormal = false := by
  cases r with
  | ok a s => exact h a s
  | err t m s => rfl
  | ret v s => rfl
  | crash m s => rfl
  | fuel => rfl

/-- A while loop on the literal true never completes normally, whatever
the fuel: it can only run out of fuel, raise, or unwind through a
return. -/
theorem whileTrue_not_normal (rho : Rho) (body : Stmt) (env : Nat) :
    ∀ (fuel : Nat) (s : St),
      (execS rho fuel (.whileS (.literal (.boolV true)) body) env s).isNormal = false := by
  intro fuel
  induction fuel with
  | zero => intro s; rfl
  | succ n ih =>
    intro s
    cases n with
    | zero => rfl
    | succ m =>
      show (execS rho (m + 1 + 1) (.whileS (.literal (.boolV true)) body) env s).isNormal
        = false
      simp only [execS, evalE, litToValue, Res.andThen, is_truthy, if_true]
      exact Res.isNormal_andThen _ _ (fun _ s2 => ih s2)

/-- Environment.ancestor peels one enclosing hop from the far end. -/
theorem ancestor_bind (s : St) : ∀ (d e : Nat),
    ancestor s e (d + 1) = (ancestor s e d).bind fun a => (s.envGet a).enclosing := by
  intro d
  induction d with
  | zero =>
    intro e
    simp only [ancestor]
    cases h : (s.envGet e).enclosing <;> simp [h]
  | succ m ih =>
    intro e
    show (match (s.envGet e).enclosing with
          | some p => ancestor s p (m + 1)
          | none => none)
        = (match (s.envGet e).enclosing with
          | some p => ancestor s p m
          | none => none).bind fun a => (s.envGet a).enclosing
    cases h : (s.envGet e).enclosing with
    | none => simp
    | some p => simp [ih p]

/-! Theorems. -/

/-- Claim C1, counterexample: the claim says no boolean ever equals a
number, but is_equal falls through to Python ==, under which
True == 1.0; so the source program print true == 1; prints true. -/
theorem claim1_counterexample :
    is_equal (.vbool true) (.vnum (PNum.ofNat 1)) = true
    ∧ specEqStrict (.vbool true) (.vnum (PNum.ofNat 1)) = false
    ∧ (loxRun "print true == 1;" 100).stdout = ["true"] := ⟨rfl, rfl, rfl⟩

/-- Claim C1 as amended: evaluating == (and != as its negation) never
raises and returns same-variant equality (booleans and strings bitwise,
numbers mathematically with NaN unequal to itself, identity for
functions, classes and instances, nil equal only to nil) EXCEPT that a
boolean and a number compare equal exactly when the number equals the
boolean's Python numeric value (true as 1, false as 0). -/
theorem claim1_theorem (t : Token) (a b : Value) (s : St) :
    (t.type = .EQUAL_EQUAL → visit_binary_op t a b s = .ok (.vbool (is_equal a b)) s)
    ∧ (t.type = .BANG_EQUAL → visit_binary_op t a b s = .ok (.vbool (!is_equal a b)) s)
    ∧ is_equal a b
        = (specEqStrict a b
            || match a, b with
               | .vbool x, .vnum m => boolNumEq x m
               | .vnum m, .vbool x => boolNumEq x m
               | _, _ => false) := by
  refine ⟨fun h => ?_, fun h => ?_, ?_⟩
  · simp [visit_binary_op, h]
  · simp [visit_binary_op, h]
  · cases a <;> cases b <;> simp [is_equal, pyEq, specEqStrict]

/-- Witness for claim C1: true == 1 at a concrete token and state. -/
theorem claim1_witness :
    visit_binary_op ⟨.EQUAL_EQUAL, "==", .noneL, 1⟩ (.vbool true) (.vnum (PNum.ofNat 1))
      initSt = .ok (.vbool true) initSt := by
  have h := (claim1_theorem ⟨.EQUAL_EQUAL, "==", .noneL, 1⟩ (.vbool true)
    (.vnum (PNum.ofNat 1)) initSt).1 rfl
  rw [h]
  rfl

/-- Claim C2 names a code bug: the spec says a reported parse error sets
hadError, so resolution and execution are skipped; but Parser.error only
prints and returns the exception, nothing ever sets had_error, and
Lox.run therefore resolves and interprets the surviving statements.  On
the source var; print 1; a parse error is reported, yet hadError stays
false (run_file would exit 0, not 65) and the second statement still
executes and prints 1. -/
theorem claim2_code_bug :
    (loxRun "var; print 1;" 100).stdout
        = ["Parse error at line 1: Expected variable name.", "1"]
    ∧ (loxRun "var; print 1;" 100).flags.hadError = false
    ∧ run_file_exit (loxRun "var; print 1;" 100).flags = 0 := ⟨rfl, rfl, rfl⟩

/-- Claim C3 names a code bug: on an uncaught runtime error the error is
reported with the trigger token's line and execution stops immediately
(both hold below: the division by zero on line 2 is reported and print 2;
never runs), but Interpreter.interpret catches the error without setting
had_runtime_error, so the flag stays false and the CLI driver would exit
0, not 70. -/
theorem claim3_code_bug :
    (loxRun "print 1;\nprint 1/0;\nprint 2;" 100).stdout
        = ["1", "Runtime error at line 2: Division by zero."]
    ∧ (loxRun "print 1;\nprint 1/0;\nprint 2;" 100).flags.hadRuntimeError = false
    ∧ run_file_exit (loxRun "print 1;\nprint 1/0;\nprint 2;" 100).flags = 0 := ⟨rfl, rfl, rfl⟩

/-- Claim C4: LoxFunction.call builds a fresh environment whose parent is
the function's closure, with each parameter bound to the corresponding
argument, and runs the body as a block in it; a non-local return makes
the call yield its payload, except that an initializer yields the this at
depth 0 of the closure; normal completion yields that this for
initializers and nil for every other function. -/
theorem claim4_theorem (rho : Rho) (n : Nat) (f : FunObj) (args : List Value) (s : St)
    (hlen : args.length = f.decl.params.length) :
    (({ s with envs := s.envs ++ [⟨paramBinds f args, some f.closure⟩] } : St).envGet
        s.envs.length = ⟨paramBinds f args, some f.closure⟩)
    ∧ (∀ s2, execStmts rho n f.decl.body s.envs.length
          { s with envs := s.envs ++ [⟨paramBinds f args, some f.closure⟩] } = .ok () s2 →
        f.isInit = false → callFun rho (n + 1) f args s = .ok .vnil s2)
    ∧ (∀ v s2, execStmts rho n f.decl.body s.envs.length
          { s with envs := s.envs ++ [⟨paramBinds f args, some f.closure⟩] } = .ret v s2 →
        f.isInit = false → callFun rho (n + 1) f args s = .ok v s2)
    ∧ (∀ s2 tv, execStmts rho n f.decl.body s.envs.length
          { s with envs := s.envs ++ [⟨paramBinds f args, some f.closure⟩] } = .ok () s2 →
        f.isInit = true → get_at s2 f.closure 0 "this" = some tv →
        callFun rho (n + 1) f args s = .ok tv s2)
    ∧ (∀ v s2 tv, execStmts rho n f.decl.body s.envs.length
          { s with envs := s.envs ++ [⟨paramBinds f args, some f.closure⟩] } = .ret v s2 →
        f.isInit = true → get_at s2 f.closure 0 "this" = some tv →
        callFun rho (n + 1) f args s = .ok tv s2) := by
  have hnl : ¬ args.length < f.decl.params.length := by omega
  refine ⟨?_, ?_, ?_, ?_, ?_⟩
  · simp [St.envGet, List.get?_concat_length]
  · intro s2 hexec hinit
    simp only [callFun, St.newEnv, if_neg hnl]
    rw [hexec, hinit]
    rfl
  · intro v s2 hexec hinit
    simp only [callFun, St.newEnv, if_neg hnl]
    rw [hexec, hinit]
    rfl
  · intro s2 tv hexec hinit hthis
    simp only [callFun, St.newEnv, if_neg hnl]
    rw [hexec, hinit]
    show (match get_at s2 f.closure 0 "this" with
          | some v => Res.ok v s2
          | none => Res.crash "KeyError" s2) = Res.ok tv s2
    rw [hthis]
  · intro v s2 tv hexec hinit hthis
    simp only [callFun, St.newEnv, if_neg hnl]
    rw [hexec, hinit]
    show (match get_at s2 f.closure 0 "this" with
          | some w => Res.ok w s2
          | none => Res.crash "KeyError" s2) = Res.ok tv s2
    rw [hthis]

/-- Witness for claim C4: calling a parameterless non-initializer with an
empty body completes normally and returns nil. -/
theorem claim4_witness :
    callFun [] 2 ⟨0, ⟨⟨.IDENTIFIER, "f", .noneL, 1⟩, [], []⟩, 0, false⟩ [] initSt
      = .ok .vnil { initSt with envs := initSt.envs ++ [⟨[], some 0⟩] } := by
  exact (claim4_theorem [] 1 ⟨0, ⟨⟨.IDENTIFIER, "f", .noneL, 1⟩, [], []⟩, 0, false⟩ []
    initSt rfl).2.1 _ rfl rfl

/-- Claim C5: the parsed for statement is literally the AST the spec
describes, Block(initializer, While(cond, Block(body,
Expression(increment)))) with omitted parts left out and a missing
condition defaulting to the literal true, so it behaves identically to
that desugared form; and while on literal true never completes normally
(it loops until fuel runs out, an error is raised, or a return unwinds),
as shown on the concrete parse of for (;;) print 1;. -/
theorem claim5_theorem :
    (∀ initOpt condOpt incrOpt body,
        forDesugar initOpt condOpt incrOpt body = forSpecDesugar initOpt condOpt incrOpt body)
    ∧ ((parseProgram (scan_tokens "for (;;) print 1;").tokens 100).1
        = [.whileS (.literal (.boolV true))
            (.printS (.literal (.numV (PNum.ofNat 1))))])
    ∧ (∀ rho fuel body env s,
        Res.isNormal (execS rho fuel (.whileS (.literal (.boolV true)) body) env s)
          = false) := by
  refine ⟨?_, ?_, ?_⟩
  · intro i c inc b
    cases i <;> cases c <;> cases inc <;> rfl
  · rfl
  · intro rho fuel body env s
    exact whileTrue_not_normal rho body env fuel s

/-- Claim C6: ancestor(d) is the environment exactly d enclosing hops
outward (0 hops is the environment itself), and get_at / assign_at read
and write exactly that environment's map, never touching any enclosing
one: a name absent there is not looked up further out, the write lands in
exactly that environment, and every other environment is untouched. -/
theorem claim6_theorem (s : St) (e : Nat) :
    ancestor s e 0 = some e
    ∧ (∀ d, ancestor s e d = specHops s e d)
    ∧ (∀ d a n, ancestor s e d = some a →
        get_at s e d n = alookup (s.envGet a).values n)
    ∧ (∀ d a n v, ancestor s e d = some a →
        assign_at s e d n v = some (s.setEnvValues a (aset (s.envGet a).values n v)))
    ∧ (∀ a n v j, j ≠ a →
        (s.setEnvValues a (aset (s.envGet a).values n v)).envGet j = s.envGet j) := by
  refine ⟨rfl, ?_, ?_, ?_, ?_⟩
  · intro d
    induction d with
    | zero => rfl
    | succ m ih => rw [specHops, ← ih, ancestor_bind]
  · intro d a n ha
    simp [get_at, ha]
  · intro d a n v ha
    simp [assign_at, ha]
  · intro a n v j hj
    simp only [St.setEnvValues, St.envGet]
    rw [List.get?_set_ne _ s.envs (fun h => hj h.symm)]

/-- Witness for claim C6: in the concrete two-environment chain, reading
x at distance 1 from the inner environment reads the outer map. -/
theorem claim6_witness :
    get_at envChainEx 1 1 "x" = alookup (envChainEx.envGet 0).values "x" := by
  exact (claim6_theorem envChainEx 1).2.2.1 1 0 "x" rfl

/-- Claim C7: for Binary +, two numbers add; otherwise if at least one
operand is a string both operands are stringified and concatenated; any
other combination raises the runtime error. -/
theorem claim7_theorem (t : Token) (l r : Value) (s : St) (ht : t.type = .PLUS) :
    (∀ a b, l = .vnum a → r = .vnum b →
        visit_binary_op t l r s = .ok (.vnum (a.add b)) s)
    ∧ ((isNumV l && isNumV r) = false → (isStrV l || isStrV r) = true →
        visit_binary_op t l r s = .ok (.vstr (stringify s l ++ stringify s r)) s)
    ∧ ((isNumV l && isNumV r) = false → (isStrV l || isStrV r) = false →
        visit_binary_op t l r s
          = .err t "Operands must be two numbers or at least one string." s) := by
  refine ⟨?_, ?_, ?_⟩
  · rintro a b rfl rfl
    simp [visit_binary_op, ht]
  · intro hnum hstr
    cases l <;> cases r <;> simp_all [visit_binary_op, isNumV, isStrV]
  · intro hnum hstr
    cases l <;> cases r <;> simp_all [visit_binary_op, isNumV, isStrV]

/-- Witness for claim C7: a string plus a number concatenates their
stringifications. -/
theorem claim7_witness :
    visit_binary_op ⟨.PLUS, "+", .noneL, 1⟩ (.vstr "a") (.vnum (PNum.ofNat 1)) initSt
      = .ok (.vstr "a1") initSt := by
  have h := (claim7_theorem ⟨.PLUS, "+", .noneL, 1⟩ (.vstr "a") (.vnum (PNum.ofNat 1))
    initSt rfl).2.1 rfl rfl
  rw [h]
  rfl

/-- Claim C8: a Logical expression evaluates its left operand first; or
returns the left value itself when truthy and and returns it when falsy,
and only otherwise is the right operand evaluated; truthiness classifies
exactly nil and false as falsy, everything else (including 0 and the
empty string) as truthy. -/
theorem claim8_theorem (rho : Rho) (n : Nat) (l : Expr) (t : Token) (r : Expr)
    (env : Nat) (s : St) :
    (t.type = .OR → evalE rho (n + 1) (.logical l t r) env s
        = (evalE rho n l env s).andThen fun lv s1 =>
            if is_truthy lv then .ok lv s1 else evalE rho n r env s1)
    ∧ (t.type = .AND → evalE rho (n + 1) (.logical l t r) env s
        = (evalE rho n l env s).andThen fun lv s1 =>
            if is_truthy lv then evalE rho n r env s1 else .ok lv s1)
    ∧ is_truthy .vnil = false
    ∧ is_truthy (.vbool false) = false
    ∧ is_truthy (.vnum (PNum.ofNat 0)) = true
    ∧ is_truthy (.vstr "") = true
    ∧ (∀ v : Value, v ≠ .vnil → v ≠ .vbool false → is_truthy v = true) := by
  refine ⟨?_, ?_, rfl, rfl, rfl, rfl, ?_⟩
  · intro h
    simp [evalE, h]
  · intro h
    simp only [evalE, h]
    congr 1
    funext lv s1
    cases hlt : is_truthy lv <;> simp [hlt]
  · intro v h1 h2
    cases v with
    | vnil => exact absurd rfl h1
    | vbool b =>
      cases b with
      | false => exact absurd rfl h2
      | true => rfl
    | vnum m => rfl
    | vstr u => rfl
    | vfun f => rfl
    | vclass c => rfl
    | vinst i => rfl
    | vclock => rfl

/-- Witness for claim C8: or with the truthy left operand 0 returns 0
itself without evaluating the right operand. -/
theorem claim8_witness :
    evalE [] 2 (.logical (.literal (.numV (PNum.ofNat 0))) ⟨.OR, "or", .noneL, 1⟩
        (.literal .nilV)) 0 initSt = .ok (.vnum (PNum.ofNat 0)) initSt := by
  have h := (claim8_theorem [] 1 (.literal (.numV (PNum.ofNat 0))) ⟨.OR, "or", .noneL, 1⟩
    (.literal .nilV) 0 initSt).1 rfl
  rw [h]
  rfl

/-- Claim C9: Binary / on two numbers raises the division-by-zero runtime
error when the right operand equals zero (no quotient is produced), and
otherwise returns the quotient (numbers are modelled as exact rationals
plus NaN); non-number operands raise the operands runtime error before
any division. -/
theorem claim9_theorem (t : Token) (l r : Value) (s : St) (ht : t.type = .SLASH) :
    (∀ a b, l = .vnum a → r = .vnum b → PNum.eqb b (PNum.ofNat 0) = true →
        visit_binary_op t l r s = .err t "Division by zero." s)
    ∧ (∀ a b, l = .vnum a → r = .vnum b → PNum.eqb b (PNum.ofNat 0) = false →
        visit_binary_op t l r s = .ok (.vnum (a.div b)) s)
    ∧ ((isNumV l && isNumV r) = false →
        visit_binary_op t l r s = .err t "Operands must be numbers." s) := by
  refine ⟨?_, ?_, ?_⟩
  · rintro a b rfl rfl hz
    simp [visit_binary_op, ht, check_number_operands, Res.andThen, hz]
  · rintro a b rfl rfl hz
    simp [visit_binary_op, ht, check_number_operands, Res.andThen, hz]
  · intro hnn
    cases l <;> cases r <;>
      simp_all [visit_binary_op, ht, check_number_operands, Res.andThen, isNumV]

/-- Witness for claim C9: 1 / 0 raises the division-by-zero error. -/
theorem claim9_witness :
    visit_binary_op ⟨.SLASH, "/", .noneL, 1⟩ (.vnum (PNum.ofNat 1)) (.vnum (PNum.ofNat 0))
      initSt = .err ⟨.SLASH, "/", .noneL, 1⟩ "Division by zero." initSt := by
  exact (claim9_theorem ⟨.SLASH, "/", .noneL, 1⟩ (.vnum (PNum.ofNat 1))
    (.vnum (PNum.ofNat 0)) initSt rfl).1 _ _ rfl rfl rfl

/-- Claim C10: a Set expression whose object evaluates to a non-instance
raises the runtime error in exactly the state left by the object
evaluation, so the value sub-expression is never evaluated and no field
table changes (the failed assignment is atomic); on an instance the value
is evaluated, the field is written, and the assigned value is the result. -/
theorem claim10_theorem (rho : Rho) (n : Nat) (obj : Expr) (name : Token) (valE : Expr)
    (env : Nat) (s : St) :
    (∀ v s1, evalE rho n obj env s = .ok v s1 → isInstV v = false →
        evalE rho (n + 1) (.setE obj name valE) env s
          = .err name "Only instances have fields." s1)
    ∧ (∀ i s1 w s2, evalE rho n obj env s = .ok (.vinst i) s1 →
        evalE rho n valE env s1 = .ok w s2 →
        evalE rho (n + 1) (.setE obj name valE) env s
          = .ok w (instSet s2 i name.lexeme w)) := by
  constructor
  · intro v s1 hobj hv
    simp only [evalE]
    rw [hobj]
    cases v <;> simp_all [isInstV, Res.andThen]
  · intro i s1 w s2 hobj hval
    simp only [evalE]
    rw [hobj]
    simp only [Res.andThen]
    rw [hval]

/-- Witness for claim C10: assigning a field on the number 1 fails with
the state unchanged, before the value expression could run. -/
theorem claim10_witness :
    evalE [] 2 (.setE (.literal (.numV (PNum.ofNat 1))) ⟨.IDENTIFIER, "x", .noneL, 1⟩
        (.literal .nilV)) 0 initSt
      = .err ⟨.IDENTIFIER, "x", .noneL, 1⟩ "Only instances have fields." initSt := by
  exact (claim10_theorem [] 1 (.literal (.numV (PNum.ofNat 1))) ⟨.IDENTIFIER, "x", .noneL, 1⟩
    (.literal .nilV) 0 initSt).1 (.vnum (PNum.ofNat 1)) initSt rfl rfl

end Pylox
